import Mathlib

/-!
Shallow embedding of the Dropify chat-bot policy engine.

The definitions below are translated from the repository's JavaScript
sources: the command dispatcher and claim/cooldown ledger in `bot.js`,
the backend client `discountApi.js`, and the Shopify helper module.
Machine time (`Date.now()`) is passed in explicitly as a `Nat` of
milliseconds; all `Date.now()` samples taken during a single command
invocation are represented by the one `now` parameter of that
invocation.  Chat sends (`client.say`) are modelled as reliable
effects that append the sent line to a reply list: the specification
scopes chat transport and connection management out as an external
collaborator.
-/

/-- JS `a || b` for a possibly-undefined string: `undefined` and the
empty string are falsy and select the fallback `b`. -/
def jsOr : Option String → String → String
  | some s, b => if s = "" then b else s
  | none, b => b

/-- Rendering of a possibly-undefined string inside a JS template
literal: `undefined` prints as `"undefined"`. -/
def jsStr : Option String → String
  | some s => s
  | none => "undefined"

/-- JS truthiness of a possibly-undefined string (`undefined` and `""`
are falsy). -/
def strTruthy : Option String → Bool
  | some s => s ≠ ""
  | none => false

/-- JS `x.replace(pat, "")` on a list of characters: only the first
occurrence of `pat` is removed. -/
def removeFirst (pat : List Char) : List Char → List Char
  | [] => []
  | c :: t =>
    if pat.isPrefixOf (c :: t) then (c :: t).drop pat.length
    else c :: removeFirst pat t

/-- JS `s.replace(pat, "")`: `String.prototype.replace` with a string
pattern replaces only the first occurrence. -/
def jsRemoveFirst (s pat : String) : String :=
  ⟨removeFirst pat.data s.data⟩

/-- Numeric value of a list of decimal digit characters. -/
def digitsVal (ds : List Char) : Nat :=
  ds.foldl (fun a c => a * 10 + (c.toNat - 48)) 0

/-- JS `parseInt(x, 10)` where `x` may be `undefined` (an absent
positional argument).  `undefined` stringifies to `"undefined"`, which
parses to `NaN` (`none`).  Leading whitespace is skipped, an optional
sign is consumed, and the longest leading run of decimal digits is
converted; no digits means `NaN`. -/
def jsParseInt10 (o : Option String) : Option Int :=
  let s := match o with
    | some s => s
    | none => "undefined"
  let cs := s.data.dropWhile (·.isWhitespace)
  let signed : Bool × List Char :=
    match cs with
    | '-' :: t => (true, t)
    | '+' :: t => (false, t)
    | t => (false, t)
  let ds := signed.2.takeWhile (·.isDigit)
  if ds.isEmpty then none
  else some ((if signed.1 then -1 else 1) * (digitsVal ds : Int))

/-- `s.toLowerCase()` (the basic-latin case mapping). -/
def jsToLower (s : String) : String :=
  ⟨s.data.map Char.toLower⟩

/-- `s.toUpperCase()` (the basic-latin case mapping). -/
def jsToUpper (s : String) : String :=
  ⟨s.data.map Char.toUpper⟩

/-- JS `s.startsWith(pat)`. -/
def jsStartsWith (s pat : String) : Bool :=
  pat.data.isPrefixOf s.data

/-- JS `s.slice(n)`. -/
def jsSlice (s : String) (n : Nat) : String :=
  ⟨s.data.drop n⟩

/-- JS `s.slice(0, n)`. -/
def jsTakeN (s : String) (n : Nat) : String :=
  ⟨s.data.take n⟩

/-- JS `s.trim()`: strip whitespace from both ends. -/
def jsTrim (s : String) : String :=
  ⟨((s.data.dropWhile Char.isWhitespace).reverse.dropWhile
      Char.isWhitespace).reverse⟩

/-- Does `pat` occur as a contiguous run in the list
(JS `String.prototype.includes`)? -/
def listContainsSub (pat : List Char) : List Char → Bool
  | [] => pat.isEmpty
  | c :: t => pat.isPrefixOf (c :: t) || listContainsSub pat t

/-- Fuel-driven whitespace tokenizer (the fuel is the list length, so
it never runs out); structural recursion keeps it kernel-computable. -/
def wsSplitF : Nat → List Char → List String
  | 0, _ => []
  | _ + 1, [] => []
  | f + 1, c :: t =>
    if c.isWhitespace then wsSplitF f t
    else
      String.mk ((c :: t).takeWhile (fun d => !d.isWhitespace)) ::
        wsSplitF f ((c :: t).dropWhile (fun d => !d.isWhitespace))

/-- JS `s.split(/\s+/)` applied to a trimmed string: runs of
whitespace separate tokens (on a trimmed input the regexp split
produces no empty fragments). -/
def splitWs (s : String) : List String :=
  wsSplitF s.data.length s.data

/-- JS `[a, b, c].join(sep)`. -/
def joinSep (sep : String) : List String → String
  | [] => ""
  | [x] => x
  | x :: y :: t => x ++ sep ++ joinSep sep (y :: t)

/-! ### The claim/cooldown ledger (`bot.js`, section 3) -/

/-- Association-list representation of a JS object used as a map;
overwriting keeps the key's position, new keys are appended, matching
JS property insertion order. -/
def lookup2 {α : Type} : List ((String × String) × α) → String × String → Option α
  | [], _ => none
  | (k', v) :: t, k => if k' = k then some v else lookup2 t k

/-- Set a key in the association-list map (overwrite in place or
append). -/
def set2 {α : Type} : List ((String × String) × α) → String × String → α →
    List ((String × String) × α)
  | [], k, v => [(k, v)]
  | (k', v') :: t, k, v => if k' = k then (k, v) :: t else (k', v') :: set2 t k v

/-- A `claimedDiscounts` entry: `{ code, createdAt: Date.now() }`.
The stored code is the backend's `result.discountCode`, which the
handler does not validate, so it may be absent (`undefined`). -/
structure ClaimEntry where
  code : Option String
  createdAt : Nat
deriving DecidableEq, Repr

/-- The process-wide mutable state of `bot.js`: the nested cooldown
object keyed by command then user (flattened here to pair keys), the
per-channel per-user claimed-discount cache, and the single global
drop timestamp `lastGlobalDropAt`. -/
structure LedgerState where
  cooldowns : List ((String × String) × Nat)
  claimedDiscounts : List ((String × String) × ClaimEntry)
  lastGlobalDropAt : Nat
deriving DecidableEq, Repr

/-- The empty start-of-process ledger (`cooldowns = {}`,
`claimedDiscounts = {}`, `lastGlobalDropAt = 0`). -/
def ledger0 : LedgerState := ⟨[], [], 0⟩

def DEFAULT_COOLDOWN_MS : Nat := 10 * 1000
def GLOBAL_DROP_COOLDOWN_MS : Nat := 5 * 60 * 1000
def DISCOUNT_LIFETIME_MS : Nat := 10 * 60 * 1000

/-- `COMMAND_COOLDOWNS` from `bot.js` (the `reload` command has no
entry and falls back to `DEFAULT_COOLDOWN_MS` in the dispatcher). -/
def COMMAND_COOLDOWNS (command : String) : Option Nat :=
  if command = "ping" then some 1000
  else if command = "help" then some 2000
  else if command = "discount" then some (30 * 1000)
  else if command = "drop" then some GLOBAL_DROP_COOLDOWN_MS
  else none

/-- Expiry instant stored for a (command, user) pair; absence reads as
`0` (`cooldowns[command][userId] || 0`). -/
def cooldownExpiry (cooldowns : List ((String × String) × Nat))
    (command userId : String) : Nat :=
  (lookup2 cooldowns (command, userId)).getD 0

/-- `isOnCooldown(command, userId)` from `bot.js`: the number of whole
seconds remaining (rounded up) if `now` is before the stored expiry,
else `0`.  `Math.ceil(d / 1000)` for positive integral `d` is
`(d + 999) / 1000` in Nat division. -/
def isOnCooldown (cooldowns : List ((String × String) × Nat))
    (command userId : String) (now : Nat) : Nat :=
  let expiresAt := cooldownExpiry cooldowns command userId
  if now < expiresAt then (expiresAt - now + 999) / 1000 else 0

/-- `setCooldown(command, userId, ms)` from `bot.js`: store
`expiry = now + ms`, overwriting any previous entry. -/
def setCooldown (cooldowns : List ((String × String) × Nat))
    (command userId : String) (now ms : Nat) : List ((String × String) × Nat) :=
  set2 cooldowns (command, userId) (now + ms)

/-- `getUserDiscount(channel, userId)` from `bot.js`: return the
stored entry unless `now - entry.createdAt > DISCOUNT_LIFETIME_MS`;
expired entries read as absent but are not removed (the function only
reads the map). -/
def getUserDiscount (claimed : List ((String × String) × ClaimEntry))
    (channel userId : String) (now : Nat) : Option ClaimEntry :=
  match lookup2 claimed (channel, userId) with
  | none => none
  | some entry =>
    if now - entry.createdAt > DISCOUNT_LIFETIME_MS then none else some entry

/-- `setUserDiscount(channel, userId, code)` from `bot.js`. -/
def setUserDiscount (claimed : List ((String × String) × ClaimEntry))
    (channel userId : String) (code : Option String) (now : Nat) :
    List ((String × String) × ClaimEntry) :=
  set2 claimed (channel, userId) ⟨code, now⟩

/-! ### Commands and the dispatcher (`bot.js`, sections 5 and 7) -/

/-- The tmi.js message tags consumed by `bot.js`: `tags["display-name"]`
and `tags["user-id"]` may be absent, `tags.username` is always present,
and `broadcaster` stands for `tags.badges && tags.badges.broadcaster`
(absent when there is no badges object or no broadcaster badge). -/
structure Tags where
  displayName : Option String
  username : String
  userId : Option String
  broadcaster : Option String
deriving DecidableEq, Repr

/-- Process configuration read from the environment: the command
prefix (`COMMAND_PREFIX`, default `"!"`) and `OWNER_USERNAME`. -/
structure Config where
  pfx : String
  owner : String
deriving DecidableEq, Repr

/-- The object resolved from `await requestViewerDiscount(...)` as the
`discount` handler observes it: `okDefined` is
`typeof result.ok !== "undefined"` (a falsy `result` is folded into
`okDefined = false`, since both cases take the same reply branch). -/
structure ViewerResult where
  okDefined : Bool
  ok : Bool
  reason : Option String
  message : Option String
  retryAfterSeconds : Option Nat
  discountCode : Option String
deriving DecidableEq, Repr

/-- The object resolved from `callBackend` in the `drop` handler
(`callBackend` always resolves to an object: non-object axios payloads
are wrapped into `{ok: false, error, ...}`).  `drop` is
`data.drop.code` when `data.drop` is present. -/
structure DropData where
  ok : Bool
  reason : Option String
  message : Option String
  error : Option String
  drop : Option String
deriving DecidableEq, Repr

/-- `err?.response?.data` of an axios rejection, as read by the `drop`
handler's catch block. -/
structure ErrPayload where
  reason : Option String
  message : Option String
deriving DecidableEq, Repr

/-- Outcomes of the external calls a single invocation can make:
the resolved viewer-discount result (that client never rejects) and
the `callBackend` outcome (`Except.error` models an axios throw). -/
structure Env where
  viewerResult : ViewerResult
  dropResult : Except (Option ErrPayload) DropData

/-- External requests issued by a handler, recorded in order. -/
inductive ExtCall where
  | viewerDiscount (streamerLogin viewerId viewerLogin viewerDisplay : String)
  | backendGlobal (twitchLogin : String) (percent : Int)
  | rosterSync
deriving DecidableEq, Repr

/-- State threaded through one handler execution: the ledger, the chat
lines sent so far, and the external calls made so far. -/
structure Ctx where
  ledger : LedgerState
  replies : List String
  calls : List ExtCall
deriving DecidableEq, Repr

/-- `client.say(channel, msg)`: append the line to the reply list. -/
def say (c : Ctx) (msg : String) : Ctx :=
  { c with replies := c.replies ++ [msg] }

/-- `tags["display-name"] || tags.username`, as computed at line 448 of
the dispatcher and again inside the handlers. -/
def msgUsername (tags : Tags) : String :=
  jsOr tags.displayName tags.username

/-- `tags["user-id"] || username.toLowerCase()`. -/
def msgUserId (tags : Tags) : String :=
  jsOr tags.userId (jsToLower (msgUsername tags))

/-- `COMMANDS.ping.execute`. -/
def pingExecute (tags : Tags) (c : Ctx) : Ctx :=
  let d := jsStr tags.displayName
  say c s!"Pong! 🏓 @{d}"

/-- `COMMANDS.help.execute`: `Object.keys(COMMANDS)` enumerates the
five commands in insertion order. -/
def helpExecute (cfg : Config) (tags : Tags) (c : Ctx) : Ctx :=
  let d := jsStr tags.displayName
  let names := ["ping", "help", "discount", "drop", "reload"]
  let commandList := joinSep ", " (names.map (fun n => cfg.pfx ++ n))
  say c s!"@{d} Available commands: {commandList}"

/-- `@u wait Ns before requesting another code.` -/
def discountWaitMsg (tags : Tags) (cd : Nat) : String :=
  let u := msgUsername tags
  s!"@{u} wait {cd}s before requesting another code."

/-- `@u generating your personal discount code… ⏳` -/
def discountGeneratingMsg (tags : Tags) : String :=
  let u := msgUsername tags
  s!"@{u} generating your personal discount code… ⏳"

/-- `🎁 @u your code: CODE — valid for ~10 minutes!` -/
def discountSuccessMsg (tags : Tags) (code : Option String) : String :=
  let u := msgUsername tags
  let codeS := jsStr code
  s!"🎁 @{u} your code: {codeS} — valid for ~10 minutes!"

/-- `@u the Dropify API didn't respond correctly.` -/
def discountBadApiMsg (tags : Tags) : String :=
  let u := msgUsername tags
  s!"@{u} the Dropify API didn't respond correctly."

/-- `@u MESSAGE` (plan-limit reply forwarding the backend message). -/
def discountPlanLimitMsg (tags : Tags) (m : Option String) : String :=
  let u := msgUsername tags
  let ms := jsStr m
  s!"@{u} {ms}"

/-- `@u Dropify discounts are currently disabled for this channel.` -/
def discountDisabledMsg (tags : Tags) : String :=
  let u := msgUsername tags
  s!"@{u} Dropify discounts are currently disabled for this channel."

/-- `@u Dropify is not fully connected to Shopify yet.` -/
def discountNotConnectedMsg (tags : Tags) : String :=
  let u := msgUsername tags
  s!"@{u} Dropify is not fully connected to Shopify yet."

/-- `@u Dropify is on cooldown, try again in about N seconds.` -/
def discountBackendCdMsg (tags : Tags) (retry : Nat) : String :=
  let u := msgUsername tags
  s!"@{u} Dropify is on cooldown, try again in about {retry} seconds."

/-- `🎁 @u you already claimed a discount this stream: CODE` -/
def discountAlreadyMsg (tags : Tags) (code : Option String) : String :=
  let u := msgUsername tags
  let cs := jsStr code
  s!"🎁 @{u} you already claimed a discount this stream: {cs}"

/-- `@u you've already redeemed your discount for this stream 🙌` -/
def discountRedeemedMsg (tags : Tags) : String :=
  let u := msgUsername tags
  s!"@{u} you've already redeemed your discount for this stream 🙌"

/-- `@u this channel isn't registered with Dropify yet.` -/
def discountNotRegisteredMsg (tags : Tags) : String :=
  let u := msgUsername tags
  s!"@{u} this channel isn't registered with Dropify yet."

/-- `@u something went wrong while generating your discount.` -/
def discountErrorMsg (tags : Tags) : String :=
  let u := msgUsername tags
  s!"@{u} something went wrong while generating your discount."

/-- `COMMANDS.discount.execute`.  The handler's own try/catch is
unreachable here because `requestViewerDiscount` never rejects and
chat sends are modelled as reliable; the cooldown is committed inside
the handler, only on the `result.ok` branch. -/
def discountExecute (env : Env) (now : Nat) (channel : String) (tags : Tags)
    (c : Ctx) : Ctx :=
  let username := msgUsername tags
  let userId := msgUserId tags
  let twitchLogin := jsToLower (jsRemoveFirst channel "#")
  let cd := isOnCooldown c.ledger.cooldowns "discount" userId now
  if cd > 0 then
    say c (discountWaitMsg tags cd)
  else
    let c := say c (discountGeneratingMsg tags)
    let c := { c with calls :=
      c.calls ++ [ExtCall.viewerDiscount twitchLogin userId tags.username username] }
    let result := env.viewerResult
    if !result.okDefined then
      say c (discountBadApiMsg tags)
    else if !result.ok then
      if result.reason = some "plan_limit" ∧ strTruthy result.message then
        say c (discountPlanLimitMsg tags result.message)
      else if result.reason = some "disabled" then
        say c (discountDisabledMsg tags)
      else if result.reason = some "not_connected" then
        say c (discountNotConnectedMsg tags)
      else if result.reason = some "cooldown" then
        let retry := match result.retryAfterSeconds with
          | some n => if n = 0 then 10 else n
          | none => 10
        say c (discountBackendCdMsg tags retry)
      else if result.reason = some "limit_reached" then
        let existingCode : Option String :=
          match getUserDiscount c.ledger.claimedDiscounts channel userId now with
          | some entry => entry.code
          | none => none
        if strTruthy existingCode then
          say c (discountAlreadyMsg tags existingCode)
        else
          say c (discountRedeemedMsg tags)
      else if result.reason = some "not_found" then
        say c (discountNotRegisteredMsg tags)
      else
        say c (discountErrorMsg tags)
    else
      let code := result.discountCode
      let claimed := setUserDiscount c.ledger.claimedDiscounts channel userId code now
      let cds := setCooldown c.ledger.cooldowns "discount" userId now (30 * 1000)
      let c := { c with ledger :=
        { c.ledger with claimedDiscounts := claimed, cooldowns := cds } }
      say c (discountSuccessMsg tags code)

/-- `@u use: !drop <1-50> (example: !drop 10)` (the handler hardcodes
the `!` prefix in this reply). -/
def dropUsageMsg (tags : Tags) : String :=
  let u := jsStr tags.displayName
  s!"@{u} use: !drop <1-50> (example: !drop 10)"

/-- `@u global drop is on cooldown. Try again in Ns.` -/
def dropCooldownMsg (tags : Tags) (remaining : Nat) : String :=
  let u := jsStr tags.displayName
  s!"@{u} global drop is on cooldown. Try again in {remaining}s."

/-- `🔥 @u is creating a global P% drop… stand by!` -/
def dropStandbyMsg (tags : Tags) (percent : Int) : String :=
  let u := jsStr tags.displayName
  s!"🔥 @{u} is creating a global {percent}% drop… stand by!"

/-- `🔥 GLOBAL DROP ACTIVATED! 🎁 Code: C 💸 P% OFF ...` -/
def dropActivatedMsg (code : String) (percent : Int) : String :=
  s!"🔥 GLOBAL DROP ACTIVATED! 🎁 Code: {code} 💸 {percent}% OFF for the next 10 minutes ⏳"

/-- `COMMANDS.drop.execute`.  When `data.ok` is truthy but `data.drop`
is absent, reading `data.drop.code` raises a TypeError that the
handler's own catch turns into the generic drop failure reply (and the
global timestamp is not recorded). -/
def dropExecute (env : Env) (now : Nat) (channel : String) (tags : Tags)
    (args : List String) (c : Ctx) : Ctx :=
  let username := jsStr tags.displayName
  let isStreamer := tags.broadcaster = some "1"
  let twitchLogin := jsRemoveFirst channel "#"
  if !isStreamer then
    say c s!"@{username} only the streamer can activate global drops."
  else
    let sinceLast := now - c.ledger.lastGlobalDropAt
    if sinceLast < GLOBAL_DROP_COOLDOWN_MS then
      let remaining := (GLOBAL_DROP_COOLDOWN_MS - sinceLast + 999) / 1000
      say c (dropCooldownMsg tags remaining)
    else
      match jsParseInt10 args.head? with
      | none =>
        say c (dropUsageMsg tags)
      | some percent =>
        if percent < 1 ∨ percent > 50 then
          say c (dropUsageMsg tags)
        else
          let c := say c (dropStandbyMsg tags percent)
          let c := { c with calls := c.calls ++ [ExtCall.backendGlobal twitchLogin percent] }
          match env.dropResult with
          | Except.error payload =>
            match payload with
            | some p =>
              if p.reason = some "plan_limit" ∧ strTruthy p.message then
                let m := jsStr p.message
                say c s!"@{username} {m}"
              else
                say c s!"@{username} something went wrong creating the drop."
            | none => say c s!"@{username} something went wrong creating the drop."
          | Except.ok data =>
            if !data.ok then
              if data.reason = some "plan_limit" ∧ strTruthy data.message then
                let m := jsStr data.message
                say c s!"@{username} {m}"
              else if strTruthy data.error then
                let e := jsStr data.error
                say c s!"@{username} {e}"
              else
                say c s!"@{username} could not create a global drop (Shopify not configured?)."
            else
              match data.drop with
              | none =>
                say c s!"@{username} something went wrong creating the drop."
              | some code =>
                let c := { c with ledger := { c.ledger with lastGlobalDropAt := now } }
                say c (dropActivatedMsg code percent)

/-- `COMMANDS.reload.execute` (owner gate; the roster sync itself has
its own try/catch and never rejects). -/
def reloadExecute (cfg : Config) (tags : Tags) (c : Ctx) : Ctx :=
  let user := jsToLower tags.username
  if cfg.owner = "" ∨ user ≠ jsToLower cfg.owner then
    let d := jsStr tags.displayName
    say c s!"@{d} You are not allowed to use this command."
  else
    let c := say c "Reloading channel list…"
    let c := { c with calls := c.calls ++ [ExtCall.rosterSync] }
    say c "Channel list synced ✅"

/-- The five registered commands of `bot.js`. -/
inductive Cmd where
  | ping | help | discount | drop | reload
deriving DecidableEq, Repr

/-- Outcome of `COMMANDS[commandName]` in JS. -/
inductive CmdLookup where
  | cmd (c : Cmd)
  | inheritedObjectProp
  | absent
deriving DecidableEq, Repr

/-- `COMMANDS[commandName]`: property lookup on a plain object literal
falls through to `Object.prototype` when the name is not an own key.
The dispatcher lower-cases the token first, and the only own property
names of `Object.prototype` that contain no upper-case letter are
`"constructor"` and `"__proto__"`; for those the lookup yields a truthy
value that has no callable `execute`. -/
def commandsLookup (name : String) : CmdLookup :=
  if name = "ping" then .cmd .ping
  else if name = "help" then .cmd .help
  else if name = "discount" then .cmd .discount
  else if name = "drop" then .cmd .drop
  else if name = "reload" then .cmd .reload
  else if name = "constructor" ∨ name = "__proto__" then .inheritedObjectProp
  else .absent

/-- `command.execute(channel, tags, args)` for a registered command. -/
def runCommand (cmd : Cmd) (cfg : Config) (env : Env) (now : Nat)
    (channel : String) (tags : Tags) (args : List String) (c : Ctx) : Ctx :=
  match cmd with
  | .ping => pingExecute tags c
  | .help => helpExecute cfg tags c
  | .discount => discountExecute env now channel tags c
  | .drop => dropExecute env now channel tags args c
  | .reload => reloadExecute cfg tags c

/-- Result of one `client.on("message")` invocation: final ledger, the
chat lines sent, the external calls made, and whether an exception from
the execute step reached the dispatch catch block. -/
structure DispatchResult where
  ledger : LedgerState
  replies : List String
  calls : List ExtCall
  handlerThrew : Bool
deriving DecidableEq, Repr

/-- The whitespace tokens of the message after the prefix is stripped
and the remainder trimmed. -/
def msgTokens (cfg : Config) (message : String) : List String :=
  splitWs (jsTrim (jsSlice message cfg.pfx.length))

/-- `parts[0].toLowerCase()`: the case-folded command identifier. -/
def msgCommandName (cfg : Config) (message : String) : String :=
  jsToLower ((msgTokens cfg message).headD "")

/-- `parts.slice(1)`: the positional arguments. -/
def msgArgs (cfg : Config) (message : String) : List String :=
  (msgTokens cfg message).tail

/-- The dispatcher's cooldown reply:
`@u wait Ns before using !cmd again.` -/
def dispatchWaitMsg (cfg : Config) (tags : Tags) (cn : String) (cd : Nat) :
    String :=
  let u := msgUsername tags
  let p := cfg.pfx
  s!"@{u} wait {cd}s before using {p}{cn} again."

/-- The dispatcher's catch-block reply:
`@u something went wrong executing !cmd.` -/
def dispatchFailMsg (cfg : Config) (tags : Tags) (cn : String) : String :=
  let u := msgUsername tags
  let p := cfg.pfx
  s!"@{u} something went wrong executing {p}{cn}."

/-- The `client.on("message")` handler of `bot.js`, section 7. -/
def handleMessage (cfg : Config) (env : Env) (now : Nat) (st : LedgerState)
    (channel : String) (tags : Tags) (message : String) (self : Bool) :
    DispatchResult :=
  if self then ⟨st, [], [], false⟩
  else if !(jsStartsWith message cfg.pfx) then ⟨st, [], [], false⟩
  else if (jsTrim (jsSlice message cfg.pfx.length)).length = 0 then
    ⟨st, [], [], false⟩
  else
    let commandName := msgCommandName cfg message
    let args := msgArgs cfg message
    match commandsLookup commandName with
    | .absent => ⟨st, [], [], false⟩
    | .inheritedObjectProp =>
      let userId := msgUserId tags
      let cd := isOnCooldown st.cooldowns commandName userId now
      if cd > 0 ∧ commandName ≠ "discount" then
        ⟨st, [dispatchWaitMsg cfg tags commandName cd], [], false⟩
      else
        ⟨st, [dispatchFailMsg cfg tags commandName], [], true⟩
    | .cmd cmd =>
      let userId := msgUserId tags
      let cd := isOnCooldown st.cooldowns commandName userId now
      if cd > 0 ∧ commandName ≠ "discount" then
        ⟨st, [dispatchWaitMsg cfg tags commandName cd], [], false⟩
      else
        let out := runCommand cmd cfg env now channel tags args ⟨st, [], []⟩
        let led :=
          if commandName ≠ "discount" then
            let customCd := (COMMAND_COOLDOWNS commandName).getD DEFAULT_COOLDOWN_MS
            { out.ledger with
              cooldowns := setCooldown out.ledger.cooldowns commandName userId
                now customCd }
          else out.ledger
        ⟨led, out.replies, out.calls, false⟩

/-! ### The backend client `discountApi.js` -/

/-- JSON values as produced by `JSON.parse`. -/
inductive Js where
  | null
  | bool (b : Bool)
  | num (n : Int)
  | str (s : String)
  | arr (elems : List Js)
  | obj (fields : List (String × Js))

/-- JS object-literal update `{...fields, key: v}`: an existing key
keeps its position and gets the new value, a new key is appended. -/
def jsObjSet : List (String × Js) → String → Js → List (String × Js)
  | [], k, v => [(k, v)]
  | (k', v') :: t, k, v =>
    if k' = k then (k, v) :: t else (k', v') :: jsObjSet t k v

/-- `ct.toLowerCase().includes("application/json")`. -/
def ctIncludesJson (ct : String) : Bool :=
  listContainsSub "application/json".data (jsToLower ct).data

/-- The outcome of `fetch(url, ...)` as `requestViewerDiscount`
observes it: either the promise rejects with an error message, or it
resolves to a response carrying a status, a content-type header, the
materialised body text, and the outcome of `JSON.parse` on that text
(`none` when parsing throws). -/
inductive FetchOutcome where
  | reject (errMsg : String)
  | response (status : Nat) (contentType : String) (raw : String)
      (parsed : Option Js)

/-- Result of the safe-parse helper `readJsonOrText`. -/
inductive Parsed where
  | json (v : Js)
  | text (raw : String)

/-- `readJsonOrText(res)` from `discountApi.js`: when the content type
advertises JSON, try `JSON.parse` and fall back to the raw text; in the
other branch the backend "still returns JSON but without proper
header", so the same parse-with-fallback is attempted anyway. -/
def readJsonOrText (contentType raw : String) (parsed : Option Js) : Parsed :=
  if ctIncludesJson contentType then
    match parsed with
    | some v => Parsed.json v
    | none => Parsed.text raw
  else
    match parsed with
    | some v => Parsed.json v
    | none => Parsed.text raw

/-- JS truthiness of a `Js` value together with
`typeof v === "object"`: JSON objects and arrays pass, `null` fails the
truthiness test, and primitives fail the `typeof` test. -/
def isTruthyObject : Js → Bool
  | Js.obj _ => true
  | Js.arr _ => true
  | _ => false

/-- The own fields enumerated by a JS spread `{...v}` of a truthy
object value: an object spreads its fields, an array spreads to
index-keyed fields. -/
def spreadFields : Js → List (String × Js)
  | Js.obj fields => fields
  | Js.arr elems => (elems.enum).map (fun p => (Nat.repr p.1, p.2))
  | _ => []

/-- `requestViewerDiscount(streamerLogin, viewer)` from
`discountApi.js`, as a function of the fetch outcome (the request URL
and body do not affect the returned value).  Every branch returns an
object; nothing is thrown. -/
def requestViewerDiscount : FetchOutcome → List (String × Js)
  | FetchOutcome.reject errMsg =>
    [("ok", Js.bool false),
     ("reason", Js.str "network_error"),
     ("message", Js.str "Failed to reach Dropify API."),
     ("error", Js.str errMsg)]
  | FetchOutcome.response status contentType raw parsed =>
    match readJsonOrText contentType raw parsed with
    | Parsed.json v =>
      if isTruthyObject v then
        jsObjSet (spreadFields v) "httpStatus" (Js.num status)
      else
        [("ok", Js.bool false),
         ("reason", Js.str (if status = 404 then "not_found" else "http_error")),
         ("message", Js.str s!"Dropify API returned HTTP {status}"),
         ("httpStatus", Js.num status),
         ("raw", v)]
    | Parsed.text raw =>
      [("ok", Js.bool false),
       ("reason", Js.str (if status = 404 then "not_found" else "http_error")),
       ("message", Js.str s!"Dropify API returned HTTP {status}"),
       ("httpStatus", Js.num status),
       ("raw", Js.str (jsTakeN raw 500))]

/-- Field read on the returned object. -/
def jsObjGet : List (String × Js) → String → Option Js
  | [], _ => none
  | (k', v) :: t, k => if k' = k then some v else jsObjGet t k

/-! ### The Shopify helper (`createDiscountCode`) -/

/-- `Math.floor(1000 + Math.random() * 9000)` as a function of the
`Math.random()` sample `u ∈ [0, 1)`, computed exactly over `ℚ`. -/
def jsRandomSuffix (u : ℚ) : ℤ :=
  ⌊(1000 : ℚ) + u * 9000⌋

/-- The code string built by `createDiscountCode`:
`` `DROP-${username.toUpperCase()}-${random}` ``. -/
def createDiscountCode (username : String) (random : Nat) : String :=
  let up := jsToUpper username
  s!"DROP-{up}-{random}"

/-! ### Basic lemmas about the ledger maps -/

theorem lookup2_set2_self {α : Type} (l : List ((String × String) × α))
    (k : String × String) (v : α) : lookup2 (set2 l k v) k = some v := by
  induction l with
  | nil => simp [set2, lookup2]
  | cons hd t ih =>
    obtain ⟨k', v'⟩ := hd
    by_cases h : k' = k
    · simp [set2, lookup2, h]
    · simp [set2, lookup2, h, ih]

theorem cooldownExpiry_setCooldown_self (cds : List ((String × String) × Nat))
    (c u : String) (now ms : Nat) :
    cooldownExpiry (setCooldown cds c u now ms) c u = now + ms := by
  simp [cooldownExpiry, setCooldown, lookup2_set2_self]

/-- `Math.ceil` of an exact rational division by 1000 agrees with the
rounded-up natural division used in the embedding. -/
theorem ceil_ratCast_div_1000 (d : ℕ) :
    ⌈((d : ℚ)) / 1000⌉ = (((d + 999) / 1000 : ℕ) : ℤ) := by
  have h : ((d : ℚ)) / 1000 = -(((-(d : ℤ) : ℤ) : ℚ) / ((1000 : ℕ) : ℚ)) := by
    push_cast
    ring
  rw [h, Int.ceil_neg, Rat.floor_intCast_div_natCast]
  omega

/-- **C3.**  `remainingCooldown` (`isOnCooldown`) returns
`ceil((expiry - now)/1000)` when `now < expiry` and `0` otherwise (so
it is never negative, its codomain being ℕ); it is `0` for a pair with
no stored cooldown, strictly positive immediately after `setCooldown`
with a positive duration, and `0` again from the instant the configured
duration has elapsed. -/
theorem remainingCooldown_spec :
    (∀ cds c u now, now < cooldownExpiry cds c u →
        (isOnCooldown cds c u now : ℤ) =
          ⌈((cooldownExpiry cds c u - now : ℕ) : ℚ) / 1000⌉)
  ∧ (∀ cds c u now, cooldownExpiry cds c u ≤ now → isOnCooldown cds c u now = 0)
  ∧ (∀ cds c u now, lookup2 cds (c, u) = none → isOnCooldown cds c u now = 0)
  ∧ (∀ cds c u now ms, 0 < ms →
        0 < isOnCooldown (setCooldown cds c u now ms) c u now)
  ∧ (∀ cds c u now ms t, now + ms ≤ t →
        isOnCooldown (setCooldown cds c u now ms) c u t = 0) := by
  refine ⟨?_, ?_, ?_, ?_, ?_⟩
  · intro cds c u now h
    rw [ceil_ratCast_div_1000]
    simp only [isOnCooldown, if_pos h]
  · intro cds c u now h
    simp only [isOnCooldown, if_neg (not_lt.mpr h)]
  · intro cds c u now h
    simp [isOnCooldown, cooldownExpiry, h]
  · intro cds c u now ms hms
    simp only [isOnCooldown, cooldownExpiry_setCooldown_self]
    rw [if_pos (by omega)]
    omega
  · intro cds c u now ms t ht
    simp only [isOnCooldown, cooldownExpiry_setCooldown_self]
    rw [if_neg (by omega)]

theorem remainingCooldown_spec_witness :
    ((isOnCooldown [(("ping", "42"), 5000)] "ping" "42" 1000 : ℤ) =
        ⌈((cooldownExpiry [(("ping", "42"), 5000)] "ping" "42" - 1000 : ℕ) : ℚ) / 1000⌉)
  ∧ isOnCooldown [(("ping", "42"), 5000)] "ping" "42" 5000 = 0
  ∧ isOnCooldown [] "discount" "42" 123 = 0
  ∧ 0 < isOnCooldown (setCooldown [] "discount" "42" 0 30000) "discount" "42" 0
  ∧ isOnCooldown (setCooldown [] "discount" "42" 0 30000) "discount" "42" 30000 = 0 :=
  ⟨remainingCooldown_spec.1 _ "ping" "42" 1000 (by decide),
   remainingCooldown_spec.2.1 _ "ping" "42" 5000 (by decide),
   remainingCooldown_spec.2.2.1 [] "discount" "42" 123 rfl,
   remainingCooldown_spec.2.2.2.1 [] "discount" "42" 0 30000 (by decide),
   remainingCooldown_spec.2.2.2.2 [] "discount" "42" 0 30000 30000 (by decide)⟩

/-- **C4.**  For a stored (channel, user) claim, `getActiveClaim`
(`getUserDiscount`) returns the stored entry exactly when
`now - createdAt ≤ DISCOUNT_LIFETIME_MS` (10 minutes): in particular it
returns the entry at `createdAt + lifetime - ε` and `none` at
`createdAt + lifetime + ε`.  The function only reads the map — the
model returns an `Option ClaimEntry` without touching the state, just
as the source never deletes the stored entry. -/
theorem getActiveClaim_spec :
    (∀ cls ch u entry t, lookup2 cls (ch, u) = some entry →
        (getUserDiscount cls ch u t = some entry ↔
          t - entry.createdAt ≤ DISCOUNT_LIFETIME_MS))
  ∧ (∀ cls ch u entry eps, lookup2 cls (ch, u) = some entry → 0 < eps →
        eps ≤ DISCOUNT_LIFETIME_MS →
        getUserDiscount cls ch u (entry.createdAt + DISCOUNT_LIFETIME_MS - eps) =
          some entry)
  ∧ (∀ cls ch u entry eps, lookup2 cls (ch, u) = some entry → 0 < eps →
        getUserDiscount cls ch u (entry.createdAt + DISCOUNT_LIFETIME_MS + eps) =
          none) := by
  refine ⟨?_, ?_, ?_⟩
  · intro cls ch u entry t h
    simp only [getUserDiscount, h]
    split
    · rename_i h2
      exact ⟨fun hh => (by cases hh), fun hh => absurd hh (by omega)⟩
    · rename_i h2
      exact ⟨fun _ => (by omega), fun _ => rfl⟩
  · intro cls ch u entry eps h heps hle
    simp only [getUserDiscount, h]
    rw [if_neg (by omega)]
  · intro cls ch u entry eps h heps
    simp only [getUserDiscount, h]
    rw [if_pos (by omega)]

theorem getActiveClaim_spec_witness :
    (getUserDiscount [(("#bob", "42"), ⟨some "DROP-ALICE-1234", 5000⟩)] "#bob" "42"
        605000 = some ⟨some "DROP-ALICE-1234", 5000⟩ ↔
      605000 - 5000 ≤ DISCOUNT_LIFETIME_MS)
  ∧ getUserDiscount [(("#bob", "42"), ⟨some "DROP-ALICE-1234", 5000⟩)] "#bob" "42"
      (5000 + DISCOUNT_LIFETIME_MS - 1) = some ⟨some "DROP-ALICE-1234", 5000⟩
  ∧ getUserDiscount [(("#bob", "42"), ⟨some "DROP-ALICE-1234", 5000⟩)] "#bob" "42"
      (5000 + DISCOUNT_LIFETIME_MS + 1) = none :=
  ⟨getActiveClaim_spec.1 _ "#bob" "42" ⟨some "DROP-ALICE-1234", 5000⟩ 605000 rfl,
   getActiveClaim_spec.2.1 _ "#bob" "42" ⟨some "DROP-ALICE-1234", 5000⟩ 1 rfl
     (by decide) (by decide),
   getActiveClaim_spec.2.2 _ "#bob" "42" ⟨some "DROP-ALICE-1234", 5000⟩ 1 rfl
     (by decide)⟩


/-! ### Concrete fixtures used by the witnesses -/

/-- A default configuration (`COMMAND_PREFIX = "!"`). -/
def cfg0 : Config := ⟨"!", "owner"⟩

/-- Tags of a sample viewer. -/
def tags0 : Tags := ⟨some "Alice", "alice", some "42", some "1"⟩

/-- An environment whose viewer issuance succeeds and whose global-drop
backend call succeeds. -/
def env0 : Env :=
  ⟨⟨true, true, none, none, none, some "DROP-ALICE-1234"⟩,
   Except.ok ⟨true, none, none, none, some "GLOBAL10"⟩⟩

/-! ### Decimal rendering and case-mapping lemmas -/

/-- Number of decimal digits `Nat.repr` prints. -/
def digitCount (n : Nat) : Nat :=
  if n < 10 then 1 else digitCount (n / 10) + 1
termination_by n
decreasing_by
  exact Nat.div_lt_self (by omega) (by omega)

theorem digitCount_of_lt {n : Nat} (h : n < 10) : digitCount n = 1 := by
  rw [digitCount, if_pos h]

theorem digitCount_of_ge {n : Nat} (h : 10 ≤ n) :
    digitCount n = digitCount (n / 10) + 1 := by
  rw [digitCount, if_neg (by omega)]

theorem toDigitsCore_length_eq :
    ∀ (fuel n : Nat) (ds : List Char), n < fuel →
      (Nat.toDigitsCore 10 fuel n ds).length = digitCount n + ds.length := by
  intro fuel
  induction fuel with
  | zero => intro n ds h; exact absurd h (Nat.not_lt_zero n)
  | succ f ih =>
    intro n ds h
    simp only [Nat.toDigitsCore]
    split
    · rename_i h0
      have hn : n < 10 := by omega
      simp [digitCount_of_lt hn]
      omega
    · rename_i h0
      have h10 : 10 ≤ n := by omega
      rw [ih (n / 10) _ (by omega)]
      rw [digitCount_of_ge h10]
      simp
      omega

theorem toDigitsCore_all_digits :
    ∀ (fuel n : Nat) (ds : List Char), ds.all Char.isDigit = true →
      (Nat.toDigitsCore 10 fuel n ds).all Char.isDigit = true := by
  have hd : ∀ m : Nat, m < 10 → (Nat.digitChar m).isDigit = true := by decide
  intro fuel
  induction fuel with
  | zero => intro n ds h; simpa [Nat.toDigitsCore] using h
  | succ f ih =>
    intro n ds h
    simp only [Nat.toDigitsCore]
    split
    · simp [List.all_cons, h, hd (n % 10) (by omega)]
    · exact ih (n / 10) _ (by simp [List.all_cons, h, hd (n % 10) (by omega)])

theorem repr_length_eq (n : Nat) : (Nat.repr n).length = digitCount n := by
  have h := toDigitsCore_length_eq (n + 1) n [] (Nat.lt_succ_self n)
  simpa [Nat.repr, Nat.toDigits, List.asString, String.length] using h

theorem repr_all_digits (n : Nat) : (Nat.repr n).data.all Char.isDigit = true := by
  have h := toDigitsCore_all_digits (n + 1) n [] rfl
  simpa [Nat.repr, Nat.toDigits, List.asString] using h

theorem digitCount_four {n : Nat} (h1 : 1000 ≤ n) (h2 : n ≤ 9999) :
    digitCount n = 4 := by
  rw [digitCount_of_ge (show 10 ≤ n by omega),
      digitCount_of_ge (show 10 ≤ n / 10 by omega),
      digitCount_of_ge (show 10 ≤ n / 10 / 10 by omega),
      digitCount_of_lt (show n / 10 / 10 / 10 < 10 by omega)]

theorem char_toNat_ofNat {m : Nat} (h : m < 55296) : (Char.ofNat m).toNat = m := by
  rw [Char.ofNat, dif_pos (Or.inl h)]
  rfl

theorem char_isUpper_iff (c : Char) :
    c.isUpper = true ↔ 65 ≤ c.toNat ∧ c.toNat ≤ 90 := by
  simp only [Char.isUpper, ge_iff_le, Bool.and_eq_true, decide_eq_true_eq,
    UInt32.le_def, BitVec.le_def]
  exact Iff.rfl

theorem char_isDigit_iff (c : Char) :
    c.isDigit = true ↔ 48 ≤ c.toNat ∧ c.toNat ≤ 57 := by
  simp only [Char.isDigit, ge_iff_le, Bool.and_eq_true, decide_eq_true_eq,
    UInt32.le_def, BitVec.le_def]
  exact Iff.rfl

theorem char_isAlphanum_iff (c : Char) :
    c.isAlphanum = true ↔
      (65 ≤ c.toNat ∧ c.toNat ≤ 90) ∨ (97 ≤ c.toNat ∧ c.toNat ≤ 122) ∨
        (48 ≤ c.toNat ∧ c.toNat ≤ 57) := by
  simp only [Char.isAlphanum, Char.isAlpha, Bool.or_eq_true, char_isUpper_iff,
    char_isDigit_iff]
  constructor
  · rintro ((h | h) | h)
    · exact Or.inl h
    · refine Or.inr (Or.inl ?_)
      simpa [Char.isLower, ge_iff_le, Bool.and_eq_true, decide_eq_true_eq,
        UInt32.le_def, BitVec.le_def] using h
    · exact Or.inr (Or.inr h)
  · rintro (h | h | h)
    · exact Or.inl (Or.inl h)
    · refine Or.inl (Or.inr ?_)
      simpa [Char.isLower, ge_iff_le, Bool.and_eq_true, decide_eq_true_eq,
        UInt32.le_def, BitVec.le_def] using h
    · exact Or.inr h

theorem toUpper_alnum {c : Char} (h : c.isAlphanum = true) :
    ((c.toUpper).isUpper || (c.toUpper).isDigit) = true := by
  rw [char_isAlphanum_iff] at h
  rw [Char.toUpper]
  split
  · rename_i hc
    have hv : (Char.ofNat (c.toNat - 32)).toNat = c.toNat - 32 :=
      char_toNat_ofNat (by omega)
    simp only [Bool.or_eq_true, char_isUpper_iff, hv]
    exact Or.inl (by omega)
  · rename_i hc
    simp only [Bool.or_eq_true, char_isUpper_iff, char_isDigit_iff]
    omega

/-- **C9.**  The personal discount code built by the Shopify helper is
`DROP-<USERNAME_UPPERCASE>-<4 digits>` for alphanumeric usernames, and
the random suffix `Math.floor(1000 + Math.random() * 9000)` maps a
uniform sample `u ∈ [0, 1)` to an integer in `[1000, 9999]` whose
preimage is, for every such integer, a half-open interval of the same
length `1/9000` — so a uniform `u` induces a uniform suffix. -/
theorem discountCode_spec :
    (∀ u : ℚ, 0 ≤ u → u < 1 → 1000 ≤ jsRandomSuffix u ∧ jsRandomSuffix u ≤ 9999)
  ∧ (∀ (u : ℚ) (k : ℤ), 0 ≤ u → u < 1 →
        (jsRandomSuffix u = k ↔
          ((k : ℚ) - 1000) / 9000 ≤ u ∧ u < ((k : ℚ) - 999) / 9000))
  ∧ (∀ k : ℤ, ((k : ℚ) - 999) / 9000 - ((k : ℚ) - 1000) / 9000 = 1 / 9000)
  ∧ (∀ (username : String) (r : Nat),
        username.data.all Char.isAlphanum = true → 1000 ≤ r → r ≤ 9999 →
        createDiscountCode username r =
            "DROP-" ++ jsToUpper username ++ "-" ++ Nat.repr r
          ∧ (Nat.repr r).length = 4
          ∧ (Nat.repr r).data.all Char.isDigit = true
          ∧ (jsToUpper username).data.all
              (fun c => c.isUpper || c.isDigit) = true) := by
  refine ⟨?_, ?_, ?_, ?_⟩
  · intro u h0 h1
    constructor
    · rw [jsRandomSuffix, Int.le_floor]
      push_cast
      nlinarith
    · rw [jsRandomSuffix]
      have hlt : (1000 : ℚ) + u * 9000 < 10000 := by nlinarith
      have h2 : (⌊(1000 : ℚ) + u * 9000⌋ : ℚ) < 10000 :=
        lt_of_le_of_lt (Int.floor_le _) hlt
      exact_mod_cast Int.lt_add_one_iff.mp (by exact_mod_cast h2)
  · intro u k h0 h1
    rw [jsRandomSuffix, Int.floor_eq_iff]
    constructor
    · rintro ⟨ha, hb⟩
      refine ⟨?_, ?_⟩
      · rw [div_le_iff₀ (by norm_num : (0 : ℚ) < 9000)]
        linarith
      · rw [lt_div_iff₀ (by norm_num : (0 : ℚ) < 9000)]
        linarith
    · rintro ⟨ha, hb⟩
      rw [div_le_iff₀ (by norm_num : (0 : ℚ) < 9000)] at ha
      rw [lt_div_iff₀ (by norm_num : (0 : ℚ) < 9000)] at hb
      constructor
      · linarith
      · linarith
  · intro k
    ring
  · intro username r halnum h1 h2
    refine ⟨?_, (repr_length_eq r).trans (digitCount_four h1 h2),
      repr_all_digits r, ?_⟩
    · simp only [createDiscountCode, toString, String.append_assoc,
        String.append_empty]
    show (username.data.map Char.toUpper).all _ = true
    rw [List.all_map]
    simp only [List.all_eq_true] at halnum ⊢
    intro c hc
    exact toUpper_alnum (halnum c hc)

theorem discountCode_spec_witness :
    (1000 ≤ jsRandomSuffix (1 / 2) ∧ jsRandomSuffix (1 / 2) ≤ 9999)
  ∧ (jsRandomSuffix (1 / 2) = 5500 ↔
      (((5500 : ℤ) : ℚ) - 1000) / 9000 ≤ 1 / 2 ∧
        (1 / 2 : ℚ) < (((5500 : ℤ) : ℚ) - 999) / 9000)
  ∧ ((((1234 : ℤ) : ℚ) - 999) / 9000 - (((1234 : ℤ) : ℚ) - 1000) / 9000 = 1 / 9000)
  ∧ (createDiscountCode "alice" 1234 =
        "DROP-" ++ jsToUpper "alice" ++ "-" ++ Nat.repr 1234
      ∧ (Nat.repr 1234).length = 4
      ∧ (Nat.repr 1234).data.all Char.isDigit = true
      ∧ (jsToUpper "alice").data.all (fun c => c.isUpper || c.isDigit) = true) :=
  ⟨discountCode_spec.1 (1 / 2) (by norm_num) (by norm_num),
   discountCode_spec.2.1 (1 / 2) 5500 (by norm_num) (by norm_num),
   discountCode_spec.2.2.1 1234,
   discountCode_spec.2.2.2 "alice" 1234 (by decide) (by norm_num) (by norm_num)⟩

/-! ### Behaviour of `requestViewerDiscount` -/

theorem readJsonOrText_none (ct raw : String) :
    readJsonOrText ct raw none = Parsed.text raw := by
  rw [readJsonOrText]
  split <;> rfl

theorem readJsonOrText_some (ct raw : String) (v : Js) :
    readJsonOrText ct raw (some v) = Parsed.json v := by
  rw [readJsonOrText]
  split <;> rfl

/-- **C10.**  `requestViewerDiscount` is total over external failures —
the model maps every fetch outcome to a returned object, and no branch
throws.  A rejected fetch yields `{ok: false, reason: "network_error",
...}`; an unparseable body yields `ok: false` with reason `"not_found"`
exactly when the HTTP status is 404 and `"http_error"` otherwise; and a
body that parses to a JSON object is returned spread with the
`httpStatus` field, whatever the status. -/
theorem requestViewerDiscount_spec :
    (∀ e, requestViewerDiscount (FetchOutcome.reject e) =
        [("ok", Js.bool false), ("reason", Js.str "network_error"),
         ("message", Js.str "Failed to reach Dropify API."),
         ("error", Js.str e)])
  ∧ (∀ status ct raw,
        jsObjGet (requestViewerDiscount
            (FetchOutcome.response status ct raw none)) "ok" =
          some (Js.bool false)
      ∧ (jsObjGet (requestViewerDiscount
            (FetchOutcome.response status ct raw none)) "reason" =
          some (Js.str "not_found") ↔ status = 404)
      ∧ (status ≠ 404 →
          jsObjGet (requestViewerDiscount
              (FetchOutcome.response status ct raw none)) "reason" =
            some (Js.str "http_error")))
  ∧ (∀ status ct raw fields,
        requestViewerDiscount
            (FetchOutcome.response status ct raw (some (Js.obj fields))) =
          jsObjSet fields "httpStatus" (Js.num status)) := by
  refine ⟨fun e => rfl, ?_, ?_⟩
  · intro status ct raw
    refine ⟨?_, ?_, ?_⟩
    · simp [requestViewerDiscount, readJsonOrText_none, jsObjGet]
    · by_cases h : status = 404
      · subst h
        simp [requestViewerDiscount, readJsonOrText_none, jsObjGet]
      · simp [requestViewerDiscount, readJsonOrText_none, jsObjGet, h]
    · intro h
      simp [requestViewerDiscount, readJsonOrText_none, jsObjGet, h]
  · intro status ct raw fields
    simp [requestViewerDiscount, readJsonOrText_some, isTruthyObject,
      spreadFields]

theorem requestViewerDiscount_spec_witness :
    requestViewerDiscount (FetchOutcome.reject "socket hang up") =
        [("ok", Js.bool false), ("reason", Js.str "network_error"),
         ("message", Js.str "Failed to reach Dropify API."),
         ("error", Js.str "socket hang up")]
  ∧ (jsObjGet (requestViewerDiscount
        (FetchOutcome.response 404 "text/html" "<html>" none)) "reason" =
      some (Js.str "not_found") ↔ (404 : Nat) = 404)
  ∧ jsObjGet (requestViewerDiscount
        (FetchOutcome.response 500 "text/html" "oops" none)) "reason" =
      some (Js.str "http_error")
  ∧ requestViewerDiscount (FetchOutcome.response 200 "application/json"
        "x" (some (Js.obj [("ok", Js.bool true)]))) =
      jsObjSet [("ok", Js.bool true)] "httpStatus" (Js.num 200) :=
  ⟨requestViewerDiscount_spec.1 "socket hang up",
   (requestViewerDiscount_spec.2.1 404 "text/html" "<html>").2.1,
   (requestViewerDiscount_spec.2.1 500 "text/html" "oops").2.2 (by decide),
   requestViewerDiscount_spec.2.2 200 "application/json" "x"
     [("ok", Js.bool true)]⟩

/-! ### Dispatcher path lemmas -/

theorem handleMessage_threw (cfg : Config) (env : Env) (now : Nat)
    (st : LedgerState) (channel : String) (tags : Tags) (message : String)
    (self : Bool)
    (h : (handleMessage cfg env now st channel tags message self).handlerThrew
      = true) :
    handleMessage cfg env now st channel tags message self =
      ⟨st, [dispatchFailMsg cfg tags (msgCommandName cfg message)], [], true⟩ := by
  unfold handleMessage at h ⊢
  dsimp only at h ⊢
  split
  · rename_i hs
    simp [hs] at h
  · rename_i hs
    split
    · rename_i hb
      simp [hs, hb] at h
    · rename_i hb
      split
      · rename_i hl
        simp [hs, hb, hl] at h
      · rename_i hl
        split
        · rename_i hm
          simp [hs, hb, hl, hm] at h
        · rename_i hm
          split
          · rename_i hcd
            simp [hs, hb, hl, hm, hcd] at h
          · rfl
        · rename_i cmd hm
          split
          · rename_i hcd
            simp [hs, hb, hl, hm, hcd] at h
          · rename_i hcd
            simp [hs, hb, hl, hm, hcd] at h

theorem handleMessage_onCooldown (cfg : Config) (env : Env) (now : Nat)
    (st : LedgerState) (channel : String) (tags : Tags) (message : String)
    (cmd : Cmd)
    (hstart : jsStartsWith message cfg.pfx = true)
    (hlen : (jsTrim (jsSlice message cfg.pfx.length)).length ≠ 0)
    (hc : commandsLookup (msgCommandName cfg message) = CmdLookup.cmd cmd)
    (hnd : msgCommandName cfg message ≠ "discount")
    (hcd : 0 < isOnCooldown st.cooldowns (msgCommandName cfg message)
        (msgUserId tags) now) :
    handleMessage cfg env now st channel tags message false =
      ⟨st, [dispatchWaitMsg cfg tags (msgCommandName cfg message)
          (isOnCooldown st.cooldowns (msgCommandName cfg message)
            (msgUserId tags) now)], [], false⟩ := by
  unfold handleMessage
  simp only [Bool.false_eq_true, if_false, hstart, Bool.not_true, hlen, hc]
  rw [if_pos ⟨hcd, hnd⟩]

/-- **C1.**  The dispatcher checks cooldown eligibility before
executing: an on-cooldown (command, user) pair yields only the wait
reply, no external call and an untouched ledger; and an invocation
whose execute step throws commits nothing — the cooldown map after a
failed invocation is the map from before it. -/
theorem dispatch_ordering_spec :
    (∀ cfg env now st channel tags message self,
        (handleMessage cfg env now st channel tags message self).handlerThrew =
          true →
        (handleMessage cfg env now st channel tags message self).ledger.cooldowns
          = st.cooldowns)
  ∧ (∀ cfg env now st channel tags message cmd,
        jsStartsWith message cfg.pfx = true →
        (jsTrim (jsSlice message cfg.pfx.length)).length ≠ 0 →
        commandsLookup (msgCommandName cfg message) = CmdLookup.cmd cmd →
        msgCommandName cfg message ≠ "discount" →
        0 < isOnCooldown st.cooldowns (msgCommandName cfg message)
            (msgUserId tags) now →
        handleMessage cfg env now st channel tags message false =
          ⟨st, [dispatchWaitMsg cfg tags (msgCommandName cfg message)
              (isOnCooldown st.cooldowns (msgCommandName cfg message)
                (msgUserId tags) now)], [], false⟩) := by
  constructor
  · intro cfg env now st channel tags message self h
    rw [handleMessage_threw cfg env now st channel tags message self h]
  · intro cfg env now st channel tags message cmd hstart hlen hc hnd hcd
    exact handleMessage_onCooldown cfg env now st channel tags message cmd
      hstart hlen hc hnd hcd

theorem dispatch_ordering_spec_witness :
    (handleMessage cfg0 env0 1000 ledger0 "#bob" tags0 "!constructor"
        false).ledger.cooldowns = ledger0.cooldowns
  ∧ handleMessage cfg0 env0 1000 ⟨[(("ping", "42"), 5000)], [], 0⟩ "#bob" tags0
        "!ping" false =
      ⟨⟨[(("ping", "42"), 5000)], [], 0⟩,
       [dispatchWaitMsg cfg0 tags0 (msgCommandName cfg0 "!ping")
          (isOnCooldown [(("ping", "42"), 5000)] (msgCommandName cfg0 "!ping")
            (msgUserId tags0) 1000)], [], false⟩ :=
  ⟨dispatch_ordering_spec.1 cfg0 env0 1000 ledger0 "#bob" tags0 "!constructor"
      false rfl,
   dispatch_ordering_spec.2 cfg0 env0 1000 ⟨[(("ping", "42"), 5000)], [], 0⟩
      "#bob" tags0 "!ping" Cmd.ping rfl (by decide) rfl (by decide) (by decide)⟩

/-- **C5.**  An exception thrown by the execute step is absorbed at the
dispatch boundary: the invocation returns normally (by construction the
model's dispatcher always yields a `DispatchResult`), the user sees
exactly one generic failure reply, and the ledger — cooldowns and
claims — is exactly the pre-invocation state. -/
theorem handler_exception_spec :
    ∀ cfg env now st channel tags message self,
      (handleMessage cfg env now st channel tags message self).handlerThrew =
        true →
      (handleMessage cfg env now st channel tags message self).replies =
          [dispatchFailMsg cfg tags (msgCommandName cfg message)]
        ∧ (handleMessage cfg env now st channel tags message self).ledger =
          st := by
  intro cfg env now st channel tags message self h
  rw [handleMessage_threw cfg env now st channel tags message self h]
  exact ⟨rfl, rfl⟩

theorem handler_exception_spec_witness :
    (handleMessage cfg0 env0 1000 ledger0 "#bob" tags0 "!__proto__"
          false).replies =
        [dispatchFailMsg cfg0 tags0 (msgCommandName cfg0 "!__proto__")]
      ∧ (handleMessage cfg0 env0 1000 ledger0 "#bob" tags0 "!__proto__"
          false).ledger = ledger0 :=
  handler_exception_spec cfg0 env0 1000 ledger0 "#bob" tags0 "!__proto__"
    false rfl

/-- **C7** is violated by the code: `COMMANDS[commandName]` is a plain
object lookup, so the inherited `Object.prototype` members
`"constructor"` and `"__proto__"` are truthy even though they are not
registered commands; calling their undefined `execute` throws, and the
dispatch catch sends one failure reply instead of staying silent.
Messages without the prefix, empty after the prefix, or with a genuinely
unknown first token do produce zero replies. -/
theorem unknown_command_prototype_leak :
    (handleMessage cfg0 env0 1000 ledger0 "#bob" tags0 "!constructor"
        false).replies = ["@Alice something went wrong executing !constructor."]
  ∧ (handleMessage cfg0 env0 1000 ledger0 "#bob" tags0 "!hello" false).replies
      = []
  ∧ (handleMessage cfg0 env0 1000 ledger0 "#bob" tags0 "hello" false).replies
      = []
  ∧ (handleMessage cfg0 env0 1000 ledger0 "#bob" tags0 "!   " false).replies
      = [] :=
  ⟨rfl, rfl, rfl, rfl⟩

/-! ### Drop handler lemmas -/

theorem dropExecute_blocked (env : Env) (now : Nat) (ch : String) (tags : Tags)
    (args : List String) (c : Ctx)
    (hb : tags.broadcaster = some "1")
    (hcd : now - c.ledger.lastGlobalDropAt < GLOBAL_DROP_COOLDOWN_MS) :
    dropExecute env now ch tags args c =
      say c (dropCooldownMsg tags
        ((GLOBAL_DROP_COOLDOWN_MS - (now - c.ledger.lastGlobalDropAt) + 999) /
          1000)) := by
  unfold dropExecute
  dsimp only
  rw [if_neg (show ¬((!decide (tags.broadcaster = some "1")) = true) from
    by simp [hb])]
  rw [if_pos hcd]

/-- The percent-argument validation of the drop handler:
`isNaN(percent) || percent < 1 || percent > 50`. -/
def dropPercentInvalid (args : List String) : Bool :=
  match jsParseInt10 args.head? with
  | none => true
  | some p => decide (p < 1) || decide (p > 50)

theorem dropExecute_usage (env : Env) (now : Nat) (ch : String) (tags : Tags)
    (args : List String) (c : Ctx)
    (hb : tags.broadcaster = some "1")
    (hcd : GLOBAL_DROP_COOLDOWN_MS ≤ now - c.ledger.lastGlobalDropAt)
    (hp : dropPercentInvalid args = true) :
    dropExecute env now ch tags args c = say c (dropUsageMsg tags) := by
  unfold dropExecute
  dsimp only
  rw [if_neg (show ¬((!decide (tags.broadcaster = some "1")) = true) from
    by simp [hb])]
  rw [if_neg (show ¬(now - c.ledger.lastGlobalDropAt < GLOBAL_DROP_COOLDOWN_MS)
    from by omega)]
  unfold dropPercentInvalid at hp
  cases hjs : jsParseInt10 args.head? with
  | none => rfl
  | some q =>
    rw [hjs] at hp
    dsimp only
    rw [if_pos (show q < 1 ∨ q > 50 from by simpa using hp)]

theorem dropExecute_success (env : Env) (now : Nat) (ch : String) (tags : Tags)
    (args : List String) (c : Ctx) (p : Int) (data : DropData) (code : String)
    (hb : tags.broadcaster = some "1")
    (hcd : GLOBAL_DROP_COOLDOWN_MS ≤ now - c.ledger.lastGlobalDropAt)
    (hjs : jsParseInt10 args.head? = some p) (h1 : 1 ≤ p) (h2 : p ≤ 50)
    (hres : env.dropResult = Except.ok data) (hok : data.ok = true)
    (hdrop : data.drop = some code) :
    dropExecute env now ch tags args c =
      ⟨{ c.ledger with lastGlobalDropAt := now },
       c.replies ++ [dropStandbyMsg tags p, dropActivatedMsg code p],
       c.calls ++ [ExtCall.backendGlobal (jsRemoveFirst ch "#") p]⟩ := by
  unfold dropExecute
  dsimp only
  rw [if_neg (show ¬((!decide (tags.broadcaster = some "1")) = true) from
    by simp [hb])]
  rw [if_neg (show ¬(now - c.ledger.lastGlobalDropAt < GLOBAL_DROP_COOLDOWN_MS)
    from by omega)]
  rw [hjs]
  dsimp only
  rw [if_neg (show ¬(p < 1 ∨ p > 50) from by omega)]
  rw [hres]
  dsimp only
  rw [if_neg (show ¬((!data.ok) = true) from by simp [hok])]
  rw [hdrop]
  dsimp only
  simp [say, List.append_assoc]

/-- **C8.**  The global-drop gate is the single process-wide
`lastGlobalDropAt` timestamp: a successful drop records the invocation
instant in it, any streamer in any channel attempting a drop within the
5-minute window receives only the cooldown reply (no backend call, no
state change), and in particular a success in one channel blocks a
subsequent attempt in every channel — the gate has no per-channel
component. -/
theorem globalDrop_shared_gate_spec :
    (∀ env now ch tags args c p data code,
        tags.broadcaster = some "1" →
        GLOBAL_DROP_COOLDOWN_MS ≤ now - c.ledger.lastGlobalDropAt →
        jsParseInt10 args.head? = some p → 1 ≤ p → p ≤ 50 →
        env.dropResult = Except.ok data → data.ok = true →
        data.drop = some code →
        (dropExecute env now ch tags args c).ledger.lastGlobalDropAt = now)
  ∧ (∀ env now ch tags args c,
        tags.broadcaster = some "1" →
        now - c.ledger.lastGlobalDropAt < GLOBAL_DROP_COOLDOWN_MS →
        dropExecute env now ch tags args c =
          say c (dropCooldownMsg tags ((GLOBAL_DROP_COOLDOWN_MS -
            (now - c.ledger.lastGlobalDropAt) + 999) / 1000)))
  ∧ (∀ env env2 now now2 ch ch2 tags tags2 args args2 c p data code,
        tags.broadcaster = some "1" →
        GLOBAL_DROP_COOLDOWN_MS ≤ now - c.ledger.lastGlobalDropAt →
        jsParseInt10 args.head? = some p → 1 ≤ p → p ≤ 50 →
        env.dropResult = Except.ok data → data.ok = true →
        data.drop = some code →
        tags2.broadcaster = some "1" →
        now2 - now < GLOBAL_DROP_COOLDOWN_MS →
        dropExecute env2 now2 ch2 tags2 args2
            (dropExecute env now ch tags args c) =
          say (dropExecute env now ch tags args c)
            (dropCooldownMsg tags2
              ((GLOBAL_DROP_COOLDOWN_MS - (now2 - now) + 999) / 1000))) := by
  refine ⟨?_, ?_, ?_⟩
  · intro env now ch tags args c p data code hb hcd hjs h1 h2 hres hok hdrop
    rw [dropExecute_success env now ch tags args c p data code hb hcd hjs h1 h2
      hres hok hdrop]
  · intro env now ch tags args c hb hcd
    exact dropExecute_blocked env now ch tags args c hb hcd
  · intro env env2 now now2 ch ch2 tags tags2 args args2 c p data code hb hcd
      hjs h1 h2 hres hok hdrop hb2 hwin
    rw [dropExecute_success env now ch tags args c p data code hb hcd hjs h1 h2
      hres hok hdrop]
    exact dropExecute_blocked env2 now2 ch2 tags2 args2 _ hb2 hwin

theorem globalDrop_shared_gate_spec_witness :
    (dropExecute env0 1000000 "#bob" tags0 ["10"] ⟨ledger0, [], []⟩).ledger.lastGlobalDropAt
        = 1000000
  ∧ dropExecute env0 1000001 "#bob" tags0 ["10"] ⟨⟨[], [], 1000000⟩, [], []⟩ =
      say ⟨⟨[], [], 1000000⟩, [], []⟩ (dropCooldownMsg tags0
        ((GLOBAL_DROP_COOLDOWN_MS - (1000001 - 1000000) + 999) / 1000))
  ∧ dropExecute env0 1100000 "#carol" ⟨some "Carol", "carol", some "77", some "1"⟩
        ["25"] (dropExecute env0 1000000 "#bob" tags0 ["10"] ⟨ledger0, [], []⟩) =
      say (dropExecute env0 1000000 "#bob" tags0 ["10"] ⟨ledger0, [], []⟩)
        (dropCooldownMsg ⟨some "Carol", "carol", some "77", some "1"⟩
          ((GLOBAL_DROP_COOLDOWN_MS - (1100000 - 1000000) + 999) / 1000)) :=
  ⟨globalDrop_shared_gate_spec.1 env0 1000000 "#bob" tags0 ["10"]
      ⟨ledger0, [], []⟩ 10 ⟨true, none, none, none, some "GLOBAL10"⟩ "GLOBAL10"
      rfl (by decide) rfl (by decide) (by decide) rfl rfl rfl,
   globalDrop_shared_gate_spec.2.1 env0 1000001 "#bob" tags0 ["10"]
      ⟨⟨[], [], 1000000⟩, [], []⟩ rfl (by decide),
   globalDrop_shared_gate_spec.2.2 env0 env0 1000000 1100000 "#bob" "#carol"
      tags0 ⟨some "Carol", "carol", some "77", some "1"⟩ ["10"] ["25"]
      ⟨ledger0, [], []⟩ 10 ⟨true, none, none, none, some "GLOBAL10"⟩ "GLOBAL10"
      rfl (by decide) rfl (by decide) (by decide) rfl rfl rfl rfl (by decide)⟩

/-- **C6.**  The global-drop command, invoked by the streamer with the
gate open: an invalid percent argument (`0`, `51`, or a non-numeric
token all fail `isNaN(percent) || percent < 1 || percent > 50`) yields
only the usage reply — no backend call, no state change; a valid
percent issues the drop (one backend call), records the drop time and
announces the code; and a subsequent attempt within 5 minutes gets only
a cooldown reply and makes no backend call. -/
theorem globalDrop_command_spec :
    (∀ env now ch tags args c,
        tags.broadcaster = some "1" →
        GLOBAL_DROP_COOLDOWN_MS ≤ now - c.ledger.lastGlobalDropAt →
        dropPercentInvalid args = true →
        dropExecute env now ch tags args c = say c (dropUsageMsg tags))
  ∧ (∀ env now ch tags args c p data code,
        tags.broadcaster = some "1" →
        GLOBAL_DROP_COOLDOWN_MS ≤ now - c.ledger.lastGlobalDropAt →
        jsParseInt10 args.head? = some p → 1 ≤ p → p ≤ 50 →
        env.dropResult = Except.ok data → data.ok = true →
        data.drop = some code →
        dropExecute env now ch tags args c =
          ⟨{ c.ledger with lastGlobalDropAt := now },
           c.replies ++ [dropStandbyMsg tags p, dropActivatedMsg code p],
           c.calls ++ [ExtCall.backendGlobal (jsRemoveFirst ch "#") p]⟩)
  ∧ (∀ env env2 now now2 ch ch2 tags tags2 args args2 c p data code,
        tags.broadcaster = some "1" →
        GLOBAL_DROP_COOLDOWN_MS ≤ now - c.ledger.lastGlobalDropAt →
        jsParseInt10 args.head? = some p → 1 ≤ p → p ≤ 50 →
        env.dropResult = Except.ok data → data.ok = true →
        data.drop = some code →
        tags2.broadcaster = some "1" →
        now2 - now < GLOBAL_DROP_COOLDOWN_MS →
        dropExecute env2 now2 ch2 tags2 args2
            (dropExecute env now ch tags args c) =
          say (dropExecute env now ch tags args c)
            (dropCooldownMsg tags2
              ((GLOBAL_DROP_COOLDOWN_MS - (now2 - now) + 999) / 1000))) := by
  refine ⟨?_, ?_, ?_⟩
  · intro env now ch tags args c hb hcd hp
    exact dropExecute_usage env now ch tags args c hb hcd hp
  · intro env now ch tags args c p data code hb hcd hjs h1 h2 hres hok hdrop
    exact dropExecute_success env now ch tags args c p data code hb hcd hjs h1
      h2 hres hok hdrop
  · intro env env2 now now2 ch ch2 tags tags2 args args2 c p data code hb hcd
      hjs h1 h2 hres hok hdrop hb2 hwin
    rw [dropExecute_success env now ch tags args c p data code hb hcd hjs h1 h2
      hres hok hdrop]
    exact dropExecute_blocked env2 now2 ch2 tags2 args2 _ hb2 hwin

theorem globalDrop_command_spec_witness :
    dropExecute env0 1000000 "#bob" tags0 ["0"] ⟨ledger0, [], []⟩ =
        say ⟨ledger0, [], []⟩ (dropUsageMsg tags0)
  ∧ dropExecute env0 1000000 "#bob" tags0 ["51"] ⟨ledger0, [], []⟩ =
        say ⟨ledger0, [], []⟩ (dropUsageMsg tags0)
  ∧ dropExecute env0 1000000 "#bob" tags0 ["abc"] ⟨ledger0, [], []⟩ =
        say ⟨ledger0, [], []⟩ (dropUsageMsg tags0)
  ∧ dropExecute env0 1000000 "#bob" tags0 ["10"] ⟨ledger0, [], []⟩ =
        ⟨{ ledger0 with lastGlobalDropAt := 1000000 },
         [dropStandbyMsg tags0 10, dropActivatedMsg "GLOBAL10" 10],
         [ExtCall.backendGlobal (jsRemoveFirst "#bob" "#") 10]⟩
  ∧ dropExecute env0 1200000 "#bob" tags0 ["10"]
        (dropExecute env0 1000000 "#bob" tags0 ["10"] ⟨ledger0, [], []⟩) =
      say (dropExecute env0 1000000 "#bob" tags0 ["10"] ⟨ledger0, [], []⟩)
        (dropCooldownMsg tags0
          ((GLOBAL_DROP_COOLDOWN_MS - (1200000 - 1000000) + 999) / 1000)) :=
  ⟨globalDrop_command_spec.1 env0 1000000 "#bob" tags0 ["0"] ⟨ledger0, [], []⟩
      rfl (by decide) rfl,
   globalDrop_command_spec.1 env0 1000000 "#bob" tags0 ["51"] ⟨ledger0, [], []⟩
      rfl (by decide) rfl,
   globalDrop_command_spec.1 env0 1000000 "#bob" tags0 ["abc"] ⟨ledger0, [], []⟩
      rfl (by decide) rfl,
   globalDrop_command_spec.2.1 env0 1000000 "#bob" tags0 ["10"]
      ⟨ledger0, [], []⟩ 10 ⟨true, none, none, none, some "GLOBAL10"⟩ "GLOBAL10"
      rfl (by decide) rfl (by decide) (by decide) rfl rfl rfl,
   globalDrop_command_spec.2.2 env0 env0 1000000 1200000 "#bob" "#bob" tags0
      tags0 ["10"] ["10"] ⟨ledger0, [], []⟩ 10
      ⟨true, none, none, none, some "GLOBAL10"⟩ "GLOBAL10"
      rfl (by decide) rfl (by decide) (by decide) rfl rfl rfl rfl (by decide)⟩

/-! ### Discount handler lemmas -/

theorem discountExecute_wait (env : Env) (now : Nat) (channel : String)
    (tags : Tags) (c : Ctx)
    (hcd : 0 < isOnCooldown c.ledger.cooldowns "discount" (msgUserId tags) now) :
    discountExecute env now channel tags c =
      say c (discountWaitMsg tags
        (isOnCooldown c.ledger.cooldowns "discount" (msgUserId tags) now)) := by
  unfold discountExecute
  dsimp only
  rw [if_pos hcd]

theorem ctx_ite_ledger (P : Prop) [Decidable P] (x y : Ctx) (L : LedgerState)
    (hx : x.ledger = L) (hy : y.ledger = L) : (if P then x else y).ledger = L := by
  by_cases h : P
  · rw [if_pos h]
    exact hx
  · rw [if_neg h]
    exact hy

theorem discountExecute_failed_ledger (env : Env) (now : Nat) (channel : String)
    (tags : Tags) (c : Ctx)
    (hfail : env.viewerResult.okDefined = false ∨ env.viewerResult.ok = false) :
    (discountExecute env now channel tags c).ledger = c.ledger := by
  by_cases hcd : 0 < isOnCooldown c.ledger.cooldowns "discount" (msgUserId tags) now
  · rw [discountExecute_wait env now channel tags c hcd]
    rfl
  · unfold discountExecute
    dsimp only
    rw [if_neg hcd]
    by_cases h1 : env.viewerResult.okDefined
    · have h2 : env.viewerResult.ok = false := by
        rcases hfail with hf | hf
        · rw [hf] at h1
          cases h1
        · exact hf
      rw [if_neg (show ¬((!env.viewerResult.okDefined) = true) from
        by simp [h1])]
      rw [if_pos (show (!env.viewerResult.ok) = true from by simp [h2])]
      repeat' apply ctx_ite_ledger
      all_goals rfl
    · rw [if_pos (show (!env.viewerResult.okDefined) = true from
        by simp [Bool.not_eq_true] at h1 ⊢; exact h1)]
      rfl

theorem discountExecute_success (env : Env) (now : Nat) (channel : String)
    (tags : Tags) (c : Ctx)
    (hok1 : env.viewerResult.okDefined = true)
    (hok2 : env.viewerResult.ok = true)
    (hcd0 : isOnCooldown c.ledger.cooldowns "discount" (msgUserId tags) now = 0) :
    discountExecute env now channel tags c =
      ⟨{ c.ledger with
          cooldowns := setCooldown c.ledger.cooldowns "discount"
            (msgUserId tags) now (30 * 1000),
          claimedDiscounts := setUserDiscount c.ledger.claimedDiscounts channel
            (msgUserId tags) env.viewerResult.discountCode now },
       c.replies ++ [discountGeneratingMsg tags,
         discountSuccessMsg tags env.viewerResult.discountCode],
       c.calls ++ [ExtCall.viewerDiscount (jsToLower (jsRemoveFirst channel "#"))
         (msgUserId tags) tags.username (msgUsername tags)]⟩ := by
  unfold discountExecute
  dsimp only
  rw [if_neg (show ¬(0 < isOnCooldown c.ledger.cooldowns "discount"
      (msgUserId tags) now) from by rw [hcd0]; simp)]
  rw [if_neg (show ¬((!env.viewerResult.okDefined) = true) from by simp [hok1])]
  rw [if_neg (show ¬((!env.viewerResult.ok) = true) from by simp [hok2])]
  unfold say
  dsimp only
  simp only [List.append_assoc, List.singleton_append]

theorem handleMessage_run (cfg : Config) (env : Env) (now : Nat)
    (st : LedgerState) (channel : String) (tags : Tags) (message : String)
    (cmd : Cmd)
    (hstart : jsStartsWith message cfg.pfx = true)
    (hlen : (jsTrim (jsSlice message cfg.pfx.length)).length ≠ 0)
    (hc : commandsLookup (msgCommandName cfg message) = CmdLookup.cmd cmd)
    (hcd : ¬(0 < isOnCooldown st.cooldowns (msgCommandName cfg message)
        (msgUserId tags) now ∧ msgCommandName cfg message ≠ "discount")) :
    handleMessage cfg env now st channel tags message false =
      (let out := runCommand cmd cfg env now channel tags (msgArgs cfg message)
        ⟨st, [], []⟩
       ⟨if msgCommandName cfg message ≠ "discount" then
          { out.ledger with
            cooldowns := setCooldown out.ledger.cooldowns
              (msgCommandName cfg message) (msgUserId tags) now
              ((COMMAND_COOLDOWNS (msgCommandName cfg message)).getD
                DEFAULT_COOLDOWN_MS) }
        else out.ledger,
        out.replies, out.calls, false⟩) := by
  unfold handleMessage
  simp only [Bool.false_eq_true, if_false, hstart, Bool.not_true, hlen, hc]
  rw [if_neg hcd]

/-- **C2.**  The personal-discount command manages its own 30-second
cooldown inside the handler, committed only after a successful external
issuance: on a failed or error result the cooldown map is exactly as
before (which also shows the dispatcher's generic post-execution commit
is skipped for this command); and if a first `!discount` succeeds, a
second one by the same user within 30 seconds yields only the wait
reply quoting at most 30 remaining seconds, performs no issuance call,
and leaves the ledger untouched. -/
theorem personalDiscount_cooldown_spec :
    (∀ cfg env now st channel tags message,
        jsStartsWith message cfg.pfx = true →
        (jsTrim (jsSlice message cfg.pfx.length)).length ≠ 0 →
        msgCommandName cfg message = "discount" →
        (env.viewerResult.okDefined = false ∨ env.viewerResult.ok = false) →
        (handleMessage cfg env now st channel tags message
            false).ledger.cooldowns = st.cooldowns)
  ∧ (∀ cfg env1 env2 now1 now2 st channel tags message,
        jsStartsWith message cfg.pfx = true →
        (jsTrim (jsSlice message cfg.pfx.length)).length ≠ 0 →
        msgCommandName cfg message = "discount" →
        env1.viewerResult.okDefined = true →
        env1.viewerResult.ok = true →
        isOnCooldown st.cooldowns "discount" (msgUserId tags) now1 = 0 →
        now1 ≤ now2 → now2 < now1 + 30 * 1000 →
        (handleMessage cfg env1 now1 st channel tags message false).replies =
            [discountGeneratingMsg tags,
             discountSuccessMsg tags env1.viewerResult.discountCode]
          ∧ cooldownExpiry (handleMessage cfg env1 now1 st channel tags message
                false).ledger.cooldowns "discount" (msgUserId tags) =
              now1 + 30 * 1000
          ∧ 0 < isOnCooldown (handleMessage cfg env1 now1 st channel tags
                message false).ledger.cooldowns "discount" (msgUserId tags) now2
          ∧ isOnCooldown (handleMessage cfg env1 now1 st channel tags message
                false).ledger.cooldowns "discount" (msgUserId tags) now2 ≤ 30
          ∧ (handleMessage cfg env2 now2 (handleMessage cfg env1 now1 st channel
                tags message false).ledger channel tags message false).replies =
              [discountWaitMsg tags (isOnCooldown (handleMessage cfg env1 now1
                st channel tags message false).ledger.cooldowns "discount"
                (msgUserId tags) now2)]
          ∧ (handleMessage cfg env2 now2 (handleMessage cfg env1 now1 st channel
                tags message false).ledger channel tags message false).calls = []
          ∧ (handleMessage cfg env2 now2 (handleMessage cfg env1 now1 st channel
                tags message false).ledger channel tags message false).ledger =
              (handleMessage cfg env1 now1 st channel tags message
                false).ledger) := by
  constructor
  · intro cfg env now st channel tags message hstart hlen hname hfail
    rw [handleMessage_run cfg env now st channel tags message Cmd.discount
      hstart hlen (by rw [hname]; rfl) (by rw [hname]; simp)]
    dsimp only [runCommand]
    rw [hname]
    rw [if_neg (by simp)]
    rw [discountExecute_failed_ledger env now channel tags ⟨st, [], []⟩ hfail]
  · intro cfg env1 env2 now1 now2 st channel tags message hstart hlen hname
      hok1 hok2 hcd0 hle hlt
    have e1 : handleMessage cfg env1 now1 st channel tags message false =
        ⟨⟨setCooldown st.cooldowns "discount" (msgUserId tags) now1 (30 * 1000),
          setUserDiscount st.claimedDiscounts channel (msgUserId tags)
            env1.viewerResult.discountCode now1,
          st.lastGlobalDropAt⟩,
         [discountGeneratingMsg tags,
          discountSuccessMsg tags env1.viewerResult.discountCode],
         [ExtCall.viewerDiscount (jsToLower (jsRemoveFirst channel "#"))
            (msgUserId tags) tags.username (msgUsername tags)], false⟩ := by
      rw [handleMessage_run cfg env1 now1 st channel tags message Cmd.discount
        hstart hlen (by rw [hname]; rfl) (by rw [hname]; simp)]
      dsimp only [runCommand]
      rw [hname]
      rw [if_neg (by simp)]
      rw [discountExecute_success env1 now1 channel tags ⟨st, [], []⟩ hok1 hok2
        hcd0]
      rfl
    have hcd2 : isOnCooldown (setCooldown st.cooldowns "discount"
        (msgUserId tags) now1 (30 * 1000)) "discount" (msgUserId tags) now2 =
        (now1 + 30 * 1000 - now2 + 999) / 1000 := by
      unfold isOnCooldown
      rw [cooldownExpiry_setCooldown_self]
      rw [if_pos (by omega)]
    have e2 : handleMessage cfg env2 now2
        (⟨setCooldown st.cooldowns "discount" (msgUserId tags) now1 (30 * 1000),
          setUserDiscount st.claimedDiscounts channel (msgUserId tags)
            env1.viewerResult.discountCode now1,
          st.lastGlobalDropAt⟩ : LedgerState) channel tags message false =
        ⟨⟨setCooldown st.cooldowns "discount" (msgUserId tags) now1 (30 * 1000),
          setUserDiscount st.claimedDiscounts channel (msgUserId tags)
            env1.viewerResult.discountCode now1,
          st.lastGlobalDropAt⟩,
         [discountWaitMsg tags ((now1 + 30 * 1000 - now2 + 999) / 1000)],
         [], false⟩ := by
      rw [handleMessage_run cfg env2 now2 _ channel tags message Cmd.discount
        hstart hlen (by rw [hname]; rfl) (by rw [hname]; simp)]
      dsimp only [runCommand]
      rw [hname]
      rw [if_neg (by simp)]
      rw [discountExecute_wait env2 now2 channel tags _ (by
        show 0 < isOnCooldown _ "discount" (msgUserId tags) now2
        rw [show (⟨⟨setCooldown st.cooldowns "discount" (msgUserId tags) now1
          (30 * 1000), setUserDiscount st.claimedDiscounts channel
          (msgUserId tags) env1.viewerResult.discountCode now1,
          st.lastGlobalDropAt⟩, [], []⟩ : Ctx).ledger.cooldowns =
          setCooldown st.cooldowns "discount" (msgUserId tags) now1 (30 * 1000)
          from rfl]
        rw [hcd2]
        omega)]
      rw [show (⟨⟨setCooldown st.cooldowns "discount" (msgUserId tags) now1
        (30 * 1000), setUserDiscount st.claimedDiscounts channel
        (msgUserId tags) env1.viewerResult.discountCode now1,
        st.lastGlobalDropAt⟩, [], []⟩ : Ctx).ledger.cooldowns =
        setCooldown st.cooldowns "discount" (msgUserId tags) now1 (30 * 1000)
        from rfl]
      rw [hcd2]
      rfl
    refine ⟨?_, ?_, ?_, ?_, ?_, ?_, ?_⟩
    · rw [e1]
    · rw [e1]
      exact cooldownExpiry_setCooldown_self st.cooldowns "discount"
        (msgUserId tags) now1 (30 * 1000)
    · rw [e1]
      show 0 < isOnCooldown (setCooldown st.cooldowns "discount"
        (msgUserId tags) now1 (30 * 1000)) "discount" (msgUserId tags) now2
      rw [hcd2]
      omega
    · rw [e1]
      show isOnCooldown (setCooldown st.cooldowns "discount"
        (msgUserId tags) now1 (30 * 1000)) "discount" (msgUserId tags) now2 ≤ 30
      rw [hcd2]
      omega
    · rw [e1]
      show (handleMessage cfg env2 now2 _ channel tags message false).replies = _
      rw [e2]
      rw [hcd2]
    · rw [e1]
      show (handleMessage cfg env2 now2 _ channel tags message false).calls = []
      rw [e2]
    · rw [e1]
      show (handleMessage cfg env2 now2 _ channel tags message false).ledger = _
      rw [e2]

/-- An environment whose viewer issuance fails
(`{ok: false, reason: "disabled"}`). -/
def envFail : Env :=
  ⟨⟨true, false, some "disabled", none, none, none⟩, Except.error none⟩

theorem personalDiscount_cooldown_spec_witness :
    (handleMessage cfg0 envFail 1000 ledger0 "#bob" tags0 "!discount"
        false).ledger.cooldowns = ledger0.cooldowns
  ∧ ((handleMessage cfg0 env0 1000 ledger0 "#bob" tags0 "!discount"
          false).replies =
        [discountGeneratingMsg tags0,
         discountSuccessMsg tags0 env0.viewerResult.discountCode]
      ∧ cooldownExpiry (handleMessage cfg0 env0 1000 ledger0 "#bob" tags0
            "!discount" false).ledger.cooldowns "discount" (msgUserId tags0) =
          1000 + 30 * 1000
      ∧ 0 < isOnCooldown (handleMessage cfg0 env0 1000 ledger0 "#bob" tags0
            "!discount" false).ledger.cooldowns "discount" (msgUserId tags0)
            20000
      ∧ isOnCooldown (handleMessage cfg0 env0 1000 ledger0 "#bob" tags0
            "!discount" false).ledger.cooldowns "discount" (msgUserId tags0)
            20000 ≤ 30
      ∧ (handleMessage cfg0 env0 20000 (handleMessage cfg0 env0 1000 ledger0
            "#bob" tags0 "!discount" false).ledger "#bob" tags0 "!discount"
            false).replies =
          [discountWaitMsg tags0 (isOnCooldown (handleMessage cfg0 env0 1000
            ledger0 "#bob" tags0 "!discount" false).ledger.cooldowns "discount"
            (msgUserId tags0) 20000)]
      ∧ (handleMessage cfg0 env0 20000 (handleMessage cfg0 env0 1000 ledger0
            "#bob" tags0 "!discount" false).ledger "#bob" tags0 "!discount"
            false).calls = []
      ∧ (handleMessage cfg0 env0 20000 (handleMessage cfg0 env0 1000 ledger0
            "#bob" tags0 "!discount" false).ledger "#bob" tags0 "!discount"
            false).ledger =
          (handleMessage cfg0 env0 1000 ledger0 "#bob" tags0 "!discount"
            false).ledger) :=
  ⟨personalDiscount_cooldown_spec.1 cfg0 envFail 1000 ledger0 "#bob" tags0
      "!discount" rfl (by decide) rfl (Or.inr rfl),
   personalDiscount_cooldown_spec.2 cfg0 env0 env0 1000 20000 ledger0 "#bob"
      tags0 "!discount" rfl (by decide) rfl rfl rfl rfl (by decide) (by decide)⟩
